import Mathlib

/-!
Shallow embedding of `Notebooks/EM/STEM/4D_STEM.ipynb` (pycroscopy/papers).

The notebook is a linear script: open an HDF5 file in `r+` mode, select the
last dataset named `Raw_Data`, set up an interactive two-panel plot with a
click callback (`move_zoom_box`), run SVD (256 components) through
`px.processing.SVD`, plot scree / abundance maps / endmembers, run k-means
(32 clusters, on the first 128 SVD components) through
`px.processing.Cluster`, plot cluster labels and a dendrogram, and close the
file.

Values are modelled as exact integer matrices: a flattened main dataset is a
`List (List Int)` of shape (position x pixel).  The external numerical
routines (the actual SVD factorisation and the k-means optimisation) are
opaque parameters of the run (`ExtLib`); the pycroscopy/pyUSID wrappers
around them (`find_dataset`, the `SVD`/`Cluster` process groups) are modelled
from the spec where noted, since their code is not part of this repository.
The run emits a trace of `Event`s, one per library call / plot / file
operation, in the order the cells execute them.
-/

/-- A flattened (position x pixel) main dataset: one row per scan position. -/
abbrev MainMatrix := List (List Int)

/-- Modelled from the spec: the group written by `px.processing.SVD`,
exposing members `U` (component scores), `S` (singular values) and
`V` (loadings/endmembers). -/
structure SVDGroup where
  U : MainMatrix
  S : List Int
  V : MainMatrix
  deriving DecidableEq

/-- Modelled from the spec: the group written by `px.processing.Cluster`,
exposing members `Labels` (one cluster label per scan position) and
`Mean_Response` (cluster centroid matrix). -/
structure ClusterGroup where
  Labels : List Nat
  Mean_Response : MainMatrix
  deriving DecidableEq

/-- Modelled from the spec: the state of the USID-formatted HDF5 file.
`datasets` are the named 2-D datasets reachable by a search
(`Raw_Data` candidates among them), `specMean` is the precomputed
`Spectroscopic_Mean` sibling dataset, the four sizes come from the
position/spectroscopic index datasets, and the two optional groups are the
results that the external library routines write back into the file. -/
structure H5File where
  datasets : List (String × MainMatrix)
  specMean : List Int
  numRows : Nat
  numCols : Nat
  numSensorRows : Nat
  numSensorCols : Nat
  svdGroup : Option SVDGroup
  kmeansGroup : Option ClusterGroup

/-- The external numerical routines the notebook delegates to, kept opaque:
the SVD factorisation behind `px.processing.SVD` and the scikit-learn
`KMeans` estimator behind `px.processing.Cluster`.  Either may fail
(e.g. non-convergence), modelled as `Except`. -/
structure ExtLib where
  svd : MainMatrix → Nat → Except String (MainMatrix × List Int × MainMatrix)
  kmeans : Nat → MainMatrix → Except String (List Nat × MainMatrix)

/-- Modelled from the spec: `usid.hdf_utils.find_dataset(h5_file, name)`
returns the datasets with the given name, in file-traversal order. -/
def find_dataset (datasets : List (String × MainMatrix)) (name : String) :
    List MainMatrix :=
  (datasets.filter (fun p => p.1 == name)).map (fun p => p.2)

/-- Cell 7 of the notebook:
`h5_main = usid.hdf_utils.find_dataset(h5_file, 'Raw_Data')[-1]`.
Python's `[-1]` takes the last element and raises on an empty list. -/
def select_raw (f : H5File) : Option MainMatrix :=
  (find_dataset f.datasets "Raw_Data").getLast?

/-- `np.reshape(v, (r, c))`: succeeds only when the length matches exactly,
returning `r` rows of `c` entries. -/
def np_reshape {α : Type} (v : List α) (r c : Nat) : Option (List (List α)) :=
  if v.length = r * c then
    some ((List.range r).map (fun i => (v.drop (i * c)).take c))
  else
    none

/-- Row-major chunking of a flat vector into `r` rows of `c` entries
(total companion of `np_reshape`, used where the notebook reshapes a
vector whose length it controls). -/
def reshapeRows {α : Type} (v : List α) (r c : Nat) : List (List α) :=
  (List.range r).map (fun i => (v.drop (i * c)).take c)

/-- Modelled from the spec: `px.processing.Cluster` truncates the score
matrix to its first `n` components (columns) before running the estimator. -/
def truncateCols (m : MainMatrix) (n : Nat) : MainMatrix :=
  m.map (fun row => row.take n)

/-- The mutable display state of the interactive cell: the crosshair lines
on the mean-response map and the data shown in the zoomed ronchigram panel. -/
structure DisplayState where
  vertLineX : Nat
  horLineY : Nat
  zoomData : List (List Int)
  deriving DecidableEq

/-- A matplotlib `button_press_event`, with its data coordinates already
rounded to integers as the callback's `int(round(event.xdata))` /
`int(round(event.ydata))` does. -/
structure ClickEvent where
  inAxes : Bool
  xdata : Nat
  ydata : Nat
  deriving DecidableEq

/-- The `move_zoom_box` click callback of cell 9.  If the click is outside
the mean-response map's axes it returns at once; otherwise it moves the
crosshair to the rounded coordinates, computes
`coarse_pos = coarse_row * num_rows + coarse_col` (note: `num_rows`, as in
the source), and reshapes `h5_main[coarse_pos]` to the sensor shape for the
zoom panel.  An out-of-range index or a mismatched reshape raises
(`none`). -/
def move_zoom_box (h5_main : MainMatrix)
    (num_rows num_sensor_rows num_sensor_cols : Nat)
    (st : DisplayState) (event : ClickEvent) : Option DisplayState :=
  if !event.inAxes then
    some st
  else
    let coarse_col := event.xdata
    let coarse_row := event.ydata
    let coarse_pos := coarse_row * num_rows + coarse_col
    match h5_main.get? coarse_pos with
    | none => none
    | some posRow =>
      match np_reshape posRow num_sensor_rows num_sensor_cols with
      | none => none
      | some current_ronch =>
        some { vertLineX := coarse_col, horLineY := coarse_row,
               zoomData := current_ronch }

/-- The data shown in the left panel of cell 9:
`np.reshape(h5_main.parent['Spectroscopic_Mean'], (num_rows, num_cols))`. -/
def main_map_data (f : H5File) : Option (List (List Int)) :=
  np_reshape f.specMean f.numRows f.numCols

/-- One observable operation of the script, in cell order. -/
inductive Event where
  | fileOpened (mode : String)
  | rawSelected (m : MainMatrix)
  | plotInteractive
  | svdCalled (input : MainMatrix) (numComponents : Nat)
  | plotScree
  | plotAbundance
  | plotEndmembers
  | clusterCalled (input : MainMatrix) (numComps : Nat)
  | kmeansCalled (numClusters : Nat) (input : MainMatrix)
  | plotClusterLabels
  | plotDendrogram
  | fileClosed
  deriving DecidableEq

/-- An uncaught Python exception terminating the script. -/
inductive NbError where
  | noRawData
  | libError (msg : String)
  deriving DecidableEq

/-- The variable bindings the notebook holds at the end of a successful run,
together with the final file state. -/
structure NotebookResults where
  h5_u : MainMatrix
  h5_s : List Int
  h5_v : MainMatrix
  h5_labels : List Nat
  h5_centroids : MainMatrix
  label_mat : List (List Nat)
  finalFile : H5File

/-- The whole script, cells 5 through 27, as one run: open the file in
`r+` mode, select the last `Raw_Data` dataset, build the interactive plot,
run SVD with 256 components and read `U`/`V`/`S`, plot scree / abundance /
endmembers, run `Cluster` on `h5_u` with a 32-cluster `KMeans` estimator and
`num_comps=128` and read `Labels`/`Mean_Response`, plot the label map and
dendrogram, and close the file.  Returns the emitted trace and either the
final bindings or the uncaught error; a failure stops the script, so no
later event is emitted. -/
def runNotebook (lib : ExtLib) (f : H5File) :
    List Event × Except NbError NotebookResults :=
  match select_raw f with
  | none => ([Event.fileOpened "r+"], Except.error NbError.noRawData)
  | some h5_main =>
    let num_svd_comps := 256
    let evsSvd := [Event.fileOpened "r+", Event.rawSelected h5_main,
                   Event.plotInteractive, Event.svdCalled h5_main num_svd_comps]
    match lib.svd h5_main num_svd_comps with
    | Except.error e => (evsSvd, Except.error (NbError.libError e))
    | Except.ok (u, s, v) =>
      let h5_svd_group : SVDGroup := ⟨u, s, v⟩
      let f1 : H5File := { f with svdGroup := some h5_svd_group }
      let h5_u := h5_svd_group.U
      let h5_v := h5_svd_group.V
      let h5_s := h5_svd_group.S
      let spectral_components := 128
      let num_clusters := 32
      let truncated := truncateCols h5_u spectral_components
      let evsKm := evsSvd ++ [Event.plotScree, Event.plotAbundance,
                   Event.plotEndmembers,
                   Event.clusterCalled h5_u spectral_components,
                   Event.kmeansCalled num_clusters truncated]
      match lib.kmeans num_clusters truncated with
      | Except.error e => (evsKm, Except.error (NbError.libError e))
      | Except.ok (labels, centroids) =>
        let h5_kmeans_group : ClusterGroup := ⟨labels, centroids⟩
        let f2 : H5File := { f1 with kmeansGroup := some h5_kmeans_group }
        let h5_labels := h5_kmeans_group.Labels
        let h5_centroids := h5_kmeans_group.Mean_Response
        let label_mat := reshapeRows h5_labels f.numRows f.numCols
        (evsKm ++ [Event.plotClusterLabels, Event.plotDendrogram,
                   Event.fileClosed],
         Except.ok { h5_u := h5_u, h5_s := h5_s, h5_v := h5_v,
                     h5_labels := h5_labels, h5_centroids := h5_centroids,
                     label_mat := label_mat, finalFile := f2 })

/-! ### Concrete fixtures -/

/-- A benign stand-in for the external numerics: SVD echoes the input as both
`U` and `V` with no singular values, k-means labels everything 0 and echoes
the input as centroids. -/
def libOk : ExtLib where
  svd := fun m _n => Except.ok (m, [], m)
  kmeans := fun _k m => Except.ok (List.replicate m.length 0, m)

/-- A 2x1 scan grid with a 1x2 sensor and a single `Raw_Data` dataset. -/
def fileOk : H5File where
  datasets := [("Raw_Data", [[1, 2], [3, 4]])]
  specMean := [1, 2]
  numRows := 2
  numCols := 1
  numSensorRows := 1
  numSensorCols := 2
  svdGroup := none
  kmeansGroup := none

/-- A file containing no dataset named `Raw_Data`. -/
def fileEmpty : H5File where
  datasets := [("Noise", [[0]])]
  specMean := []
  numRows := 0
  numCols := 0
  numSensorRows := 0
  numSensorCols := 0
  svdGroup := none
  kmeansGroup := none

/-- A file containing two distinct datasets named `Raw_Data`. -/
def fileTwo : H5File where
  datasets := [("Raw_Data", [[10]]), ("Noise", [[0]]), ("Raw_Data", [[20]])]
  specMean := [10]
  numRows := 1
  numCols := 1
  numSensorRows := 1
  numSensorCols := 1
  svdGroup := none
  kmeansGroup := none

/-! ### Inversion of a successful run -/

/-- A successful run determines its whole shape: the selected raw dataset,
the two library calls and their results, the full event trace and the final
bindings. -/
theorem runNotebook_ok_inv (lib : ExtLib) (f : H5File) (tr : List Event)
    (r : NotebookResults) (h : runNotebook lib f = (tr, Except.ok r)) :
    ∃ m u s v labels centroids,
      select_raw f = some m ∧
      lib.svd m 256 = Except.ok (u, s, v) ∧
      lib.kmeans 32 (truncateCols u 128) = Except.ok (labels, centroids) ∧
      tr = [Event.fileOpened "r+", Event.rawSelected m, Event.plotInteractive,
            Event.svdCalled m 256, Event.plotScree, Event.plotAbundance,
            Event.plotEndmembers, Event.clusterCalled u 128,
            Event.kmeansCalled 32 (truncateCols u 128),
            Event.plotClusterLabels, Event.plotDendrogram, Event.fileClosed] ∧
      r = { h5_u := u, h5_s := s, h5_v := v, h5_labels := labels,
            h5_centroids := centroids,
            label_mat := reshapeRows labels f.numRows f.numCols,
            finalFile := { f with svdGroup := some ⟨u, s, v⟩,
                                  kmeansGroup := some ⟨labels, centroids⟩ } } := by
  rcases hsel : select_raw f with _ | m
  · simp [runNotebook, hsel] at h
  rcases hsvd : lib.svd m 256 with e | ⟨u, s, v⟩
  · simp [runNotebook, hsel, hsvd] at h
  rcases hkm : lib.kmeans 32 (truncateCols u 128) with e | ⟨labels, centroids⟩
  · simp [runNotebook, hsel, hsvd, hkm] at h
  · refine ⟨m, u, s, v, labels, centroids, rfl, hsvd, hkm, ?_, ?_⟩
    · simp [runNotebook, hsel, hsvd, hkm] at h
      exact h.1.symm
    · simp [runNotebook, hsel, hsvd, hkm] at h
      exact h.2.symm

/-- The raw dataset of `fileOk`. -/
def mRaw : MainMatrix := [[1, 2], [3, 4]]

/-- The trace of the run of `libOk` on `fileOk`. -/
def trW : List Event :=
  [Event.fileOpened "r+", Event.rawSelected mRaw, Event.plotInteractive,
   Event.svdCalled mRaw 256, Event.plotScree, Event.plotAbundance,
   Event.plotEndmembers, Event.clusterCalled mRaw 128,
   Event.kmeansCalled 32 mRaw,
   Event.plotClusterLabels, Event.plotDendrogram, Event.fileClosed]

/-- The final bindings of the run of `libOk` on `fileOk`. -/
def resW : NotebookResults :=
  { h5_u := mRaw, h5_s := [], h5_v := mRaw,
    h5_labels := [0, 0], h5_centroids := mRaw,
    label_mat := [[0], [0]],
    finalFile := { fileOk with svdGroup := some ⟨mRaw, [], mRaw⟩,
                               kmeansGroup := some ⟨[0, 0], mRaw⟩ } }

/-- The trace of the run of `libOk` on `fileTwo`. -/
def trTwo : List Event :=
  [Event.fileOpened "r+", Event.rawSelected [[20]], Event.plotInteractive,
   Event.svdCalled [[20]] 256, Event.plotScree, Event.plotAbundance,
   Event.plotEndmembers, Event.clusterCalled [[20]] 128,
   Event.kmeansCalled 32 [[20]],
   Event.plotClusterLabels, Event.plotDendrogram, Event.fileClosed]

/-- The final bindings of the run of `libOk` on `fileTwo`. -/
def resTwo : NotebookResults :=
  { h5_u := [[20]], h5_s := [], h5_v := [[20]],
    h5_labels := [0], h5_centroids := [[20]],
    label_mat := [[0]],
    finalFile := { fileTwo with svdGroup := some ⟨[[20]], [], [[20]]⟩,
                                kmeansGroup := some ⟨[0], [[20]]⟩ } }

/-- `fileOk` with the same stored mean and grid sizes but different raw
measurements. -/
def fileOkAlt : H5File :=
  { fileOk with datasets := [("Raw_Data", [[9, 9], [9, 9]])] }

/-! ### Claim theorems -/

/-- Claim C1: the spec says a click at integer-rounded data coordinates
(row, col) shows the ronchigram of the clicked scan position, the row of the
flattened matrix at the row-major index `row * num_cols + col` of the
(rows x columns) grid.  The callback instead computes
`coarse_pos = coarse_row * num_rows + coarse_col`.  On a 2 x 3 grid
(num_rows = 2, num_cols = 3) with positions `[[0],[1],[2],[3],[4],[5]]` and a
1 x 1 sensor, a click at (row = 1, col = 2) displays position
`1 * 2 + 2 = 4` (data `[[4]]`), while the clicked scan position is
`1 * 3 + 2 = 5` (data `[[5]]`). -/
theorem click_uses_num_rows_not_num_cols :
    move_zoom_box [[0], [1], [2], [3], [4], [5]] 2 1 1
        ⟨0, 0, [[0]]⟩ ⟨true, 2, 1⟩ = some ⟨2, 1, [[4]]⟩ ∧
    (1 * 3 + 2 : Nat) = 5 ∧
    [[0], [1], [2], [3], [4], [5]].get? (1 * 3 + 2) = some ([5] : List Int) ∧
    np_reshape ([5] : List Int) 1 1 = some [[5]] ∧
    ([[4]] : List (List Int)) ≠ [[5]] := by
  refine ⟨rfl, rfl, rfl, rfl, by decide⟩

/-- Claim C9: a button-press event outside the mean-response map's axes makes
the callback return immediately, leaving the crosshair lines and the zoomed
ronchigram unchanged. -/
theorem click_outside_axes_no_change (m : MainMatrix)
    (nr nsr nsc : Nat) (st : DisplayState) (ev : ClickEvent)
    (h : ev.inAxes = false) :
    move_zoom_box m nr nsr nsc st ev = some st := by
  simp [move_zoom_box, h]

/-- Witness for C9: a concrete out-of-axes click leaves a concrete display
state untouched. -/
theorem click_outside_axes_no_change_witness :
    move_zoom_box [[0]] 1 1 1 ⟨0, 0, [[0]]⟩ ⟨false, 5, 5⟩ =
      some ⟨0, 0, [[0]]⟩ :=
  click_outside_axes_no_change [[0]] 1 1 1 ⟨0, 0, [[0]]⟩ ⟨false, 5, 5⟩ rfl

/-- Claim C8: the left panel shows the precomputed `Spectroscopic_Mean`
dataset reshaped to the (rows x cols) scan grid, and the notebook does not
compute this mean itself: the displayed data is a function of the stored
mean dataset and the grid sizes alone, never of the raw measurements. -/
theorem mean_map_from_stored_mean (f g : H5File)
    (hm : f.specMean = g.specMean) (hr : f.numRows = g.numRows)
    (hc : f.numCols = g.numCols) :
    main_map_data f = np_reshape f.specMean f.numRows f.numCols ∧
    main_map_data f = main_map_data g := by
  refine ⟨rfl, ?_⟩
  simp [main_map_data, hm, hr, hc]

/-- Witness for C8: two files with the same stored mean and grid but
different raw measurements display the same mean map. -/
theorem mean_map_from_stored_mean_witness :
    fileOk.datasets ≠ fileOkAlt.datasets ∧
    main_map_data fileOk = main_map_data fileOkAlt ∧
    main_map_data fileOk = some [[1], [2]] := by
  have h := mean_map_from_stored_mean fileOk fileOkAlt rfl rfl rfl
  exact ⟨by decide, h.2, rfl⟩

/-- Claim C2: the dimensionality-reduction step invokes the external SVD
routine on the raw (position x pixel) matrix requesting 256 components, and
the group it returns exposes the members `U`, `V` and `S`, each of which the
notebook then reads (into `h5_u`, `h5_v`, `h5_s`). -/
theorem svd_call_and_reads (lib : ExtLib) (f : H5File) (tr : List Event)
    (r : NotebookResults) (h : runNotebook lib f = (tr, Except.ok r)) :
    ∃ m g, select_raw f = some m ∧
      Event.svdCalled m 256 ∈ tr ∧
      lib.svd m 256 = Except.ok (g.U, g.S, g.V) ∧
      r.finalFile.svdGroup = some g ∧
      r.h5_u = g.U ∧ r.h5_v = g.V ∧ r.h5_s = g.S := by
  obtain ⟨m, u, s, v, labels, centroids, hsel, hsvd, hkm, htr, hr⟩ :=
    runNotebook_ok_inv lib f tr r h
  subst htr hr
  exact ⟨m, ⟨u, s, v⟩, hsel, by simp, hsvd, rfl, rfl, rfl, rfl⟩

/-- Witness for C2: the SVD-invocation facts hold on the concrete run of
`libOk` over `fileOk`. -/
theorem svd_call_and_reads_witness :
    ∃ m g, select_raw fileOk = some m ∧
      Event.svdCalled m 256 ∈ trW ∧
      libOk.svd m 256 = Except.ok (g.U, g.S, g.V) ∧
      resW.finalFile.svdGroup = some g ∧
      resW.h5_u = g.U ∧ resW.h5_v = g.V ∧ resW.h5_s = g.S :=
  svd_call_and_reads libOk fileOk trW resW rfl

/-- Claim C3: the clustering step invokes k-means with exactly 32 clusters on
the first 128 components of the SVD score matrix `U`, and the group it
returns exposes the members `Labels` (one label per scan position, reshaped
by the notebook to the rows x cols grid) and `Mean_Response`, each of which
the notebook then reads. -/
theorem cluster_call_and_reads (lib : ExtLib) (f : H5File) (tr : List Event)
    (r : NotebookResults) (h : runNotebook lib f = (tr, Except.ok r)) :
    ∃ m s v g, select_raw f = some m ∧
      lib.svd m 256 = Except.ok (r.h5_u, s, v) ∧
      Event.clusterCalled r.h5_u 128 ∈ tr ∧
      Event.kmeansCalled 32 (truncateCols r.h5_u 128) ∈ tr ∧
      lib.kmeans 32 (truncateCols r.h5_u 128) =
        Except.ok (g.Labels, g.Mean_Response) ∧
      r.finalFile.kmeansGroup = some g ∧
      r.h5_labels = g.Labels ∧ r.h5_centroids = g.Mean_Response ∧
      r.label_mat = reshapeRows r.h5_labels f.numRows f.numCols := by
  obtain ⟨m, u, s, v, labels, centroids, hsel, hsvd, hkm, htr, hr⟩ :=
    runNotebook_ok_inv lib f tr r h
  subst htr hr
  exact ⟨m, s, v, ⟨labels, centroids⟩, hsel, hsvd, by simp, by simp, hkm,
         rfl, rfl, rfl, rfl⟩

/-- Witness for C3: the clustering-invocation facts hold on the concrete run
of `libOk` over `fileOk`. -/
theorem cluster_call_and_reads_witness :
    ∃ m s v g, select_raw fileOk = some m ∧
      libOk.svd m 256 = Except.ok (resW.h5_u, s, v) ∧
      Event.clusterCalled resW.h5_u 128 ∈ trW ∧
      Event.kmeansCalled 32 (truncateCols resW.h5_u 128) ∈ trW ∧
      libOk.kmeans 32 (truncateCols resW.h5_u 128) =
        Except.ok (g.Labels, g.Mean_Response) ∧
      resW.finalFile.kmeansGroup = some g ∧
      resW.h5_labels = g.Labels ∧ resW.h5_centroids = g.Mean_Response ∧
      resW.label_mat = reshapeRows resW.h5_labels fileOk.numRows fileOk.numCols :=
  cluster_call_and_reads libOk fileOk trW resW rfl

/-- Claim C4: the explicit close of the file handle is the final operation of
the script: it is the last event of every completed run, nothing after it
exists in the trace, and opening, raw-dataset selection, the SVD and
clustering calls and every visualization step all occur strictly before
it. -/
theorem close_is_final (lib : ExtLib) (f : H5File) (tr : List Event)
    (r : NotebookResults) (h : runNotebook lib f = (tr, Except.ok r)) :
    tr.getLast? = some Event.fileClosed ∧
    (∀ e ∈ tr.dropLast, e ≠ Event.fileClosed) ∧
    Event.fileOpened "r+" ∈ tr.dropLast ∧
    Event.plotInteractive ∈ tr.dropLast ∧
    Event.plotScree ∈ tr.dropLast ∧
    Event.plotAbundance ∈ tr.dropLast ∧
    Event.plotEndmembers ∈ tr.dropLast ∧
    Event.plotClusterLabels ∈ tr.dropLast ∧
    Event.plotDendrogram ∈ tr.dropLast ∧
    (∃ m, Event.rawSelected m ∈ tr.dropLast ∧
          Event.svdCalled m 256 ∈ tr.dropLast) ∧
    (∃ u, Event.clusterCalled u 128 ∈ tr.dropLast ∧
          Event.kmeansCalled 32 (truncateCols u 128) ∈ tr.dropLast) := by
  obtain ⟨m, u, s, v, labels, centroids, hsel, hsvd, hkm, htr, hr⟩ :=
    runNotebook_ok_inv lib f tr r h
  subst htr
  refine ⟨rfl, ?_, by simp, by simp, by simp, by simp, by simp, by simp,
          by simp, ⟨m, by simp, by simp⟩, ⟨u, by simp, by simp⟩⟩
  intro e he
  simp [List.dropLast] at he
  rcases he with h | h | h | h | h | h | h | h | h | h | h <;> subst h <;> simp

/-- Witness for C4: on the concrete run of `libOk` over `fileOk`, the close
is the last event and the dendrogram plot precedes it. -/
theorem close_is_final_witness :
    trW.getLast? = some Event.fileClosed ∧
    Event.plotDendrogram ∈ trW.dropLast := by
  have h := close_is_final libOk fileOk trW resW rfl
  exact ⟨h.1, h.2.2.2.2.2.2.2.2.1⟩

/-- Claim C5: no step catches exceptions.  Any run that ends in an error
never reaches the close (or anything past the failing call): the emitted
trace is exactly the prefix of the script up to the failing step, and in
particular a file with no dataset named `Raw_Data` fails at the selection,
right after the open, with nothing else executed. -/
theorem failure_stops_script (lib : ExtLib) (f : H5File) (tr : List Event)
    (e : NbError) (h : runNotebook lib f = (tr, Except.error e)) :
    Event.fileClosed ∉ tr ∧
    (find_dataset f.datasets "Raw_Data" = [] →
      tr = [Event.fileOpened "r+"] ∧ e = NbError.noRawData) ∧
    (tr = [Event.fileOpened "r+"] ∨
     (∃ m, tr = [Event.fileOpened "r+", Event.rawSelected m,
                 Event.plotInteractive, Event.svdCalled m 256]) ∨
     (∃ m u, tr = [Event.fileOpened "r+", Event.rawSelected m,
                   Event.plotInteractive, Event.svdCalled m 256,
                   Event.plotScree, Event.plotAbundance,
                   Event.plotEndmembers, Event.clusterCalled u 128,
                   Event.kmeansCalled 32 (truncateCols u 128)])) := by
  rcases hsel : select_raw f with _ | m
  · simp only [runNotebook, hsel] at h
    obtain ⟨h1, h2⟩ := Prod.mk.injEq .. ▸ h
    refine ⟨?_, fun _ => ⟨h1.symm, ?_⟩, Or.inl h1.symm⟩
    · subst h1; simp
    · exact (Except.error.injEq .. ▸ h2).symm
  · rcases hsvd : lib.svd m 256 with e' | ⟨u, s, v⟩
    · simp only [runNotebook, hsel, hsvd] at h
      obtain ⟨h1, _⟩ := Prod.mk.injEq .. ▸ h
      refine ⟨?_, ?_, Or.inr (Or.inl ⟨m, h1.symm⟩)⟩
      · subst h1; simp
      · intro hf
        rw [select_raw, hf] at hsel
        simp at hsel
    · rcases hkm : lib.kmeans 32 (truncateCols u 128) with e' | ⟨labels, centroids⟩
      · simp only [runNotebook, hsel, hsvd] at h
        rw [show truncateCols (SVDGroup.mk u s v).U 128 = truncateCols u 128
              from rfl, hkm] at h
        obtain ⟨h1, _⟩ := Prod.mk.injEq .. ▸ h
        refine ⟨?_, ?_, Or.inr (Or.inr ⟨m, u, h1.symm⟩)⟩
        · subst h1; simp
        · intro hf
          rw [select_raw, hf] at hsel
          simp at hsel
      · simp [runNotebook, hsel, hsvd, hkm] at h

/-- Witness for C5: on the file with no `Raw_Data` dataset, the run stops
right after the open with an uncaught error and never closes the file. -/
theorem failure_stops_script_witness :
    Event.fileClosed ∉ ([Event.fileOpened "r+"] : List Event) ∧
    find_dataset fileEmpty.datasets "Raw_Data" = [] ∧
    runNotebook libOk fileEmpty =
      ([Event.fileOpened "r+"], Except.error NbError.noRawData) := by
  have h := failure_stops_script libOk fileEmpty [Event.fileOpened "r+"]
    NbError.noRawData rfl
  exact ⟨h.1, rfl, rfl⟩

/-- Claim C6: the script is a fixed linear sequence in which the SVD call
always precedes the clustering call, and the clustering call's input is
exactly the score matrix `U` returned by that earlier SVD call over the raw
dataset. -/
theorem svd_before_cluster (lib : ExtLib) (f : H5File) (tr : List Event)
    (r : NotebookResults) (h : runNotebook lib f = (tr, Except.ok r)) :
    ∃ m u s v, ∃ i j : Nat, select_raw f = some m ∧
      lib.svd m 256 = Except.ok (u, s, v) ∧
      i < j ∧
      tr[i]? = some (Event.svdCalled m 256) ∧
      tr[j]? = some (Event.clusterCalled u 128) := by
  obtain ⟨m, u, s, v, labels, centroids, hsel, hsvd, hkm, htr, hr⟩ :=
    runNotebook_ok_inv lib f tr r h
  subst htr
  exact ⟨m, u, s, v, 3, 7, hsel, hsvd, by norm_num, rfl, rfl⟩

/-- Witness for C6: the ordering facts hold on the concrete run of `libOk`
over `fileOk`. -/
theorem svd_before_cluster_witness :
    ∃ m u s v, ∃ i j : Nat, select_raw fileOk = some m ∧
      libOk.svd m 256 = Except.ok (u, s, v) ∧
      i < j ∧
      trW[i]? = some (Event.svdCalled m 256) ∧
      trW[j]? = some (Event.clusterCalled u 128) :=
  svd_before_cluster libOk fileOk trW resW rfl

/-- Claim C7: the file is opened in read-write (`r+`) mode, the SVD and
k-means results are written as new groups into that same file, and the raw
measurement datasets (and the stored mean) are unchanged by the run. -/
theorem file_writes_and_raw_preserved (lib : ExtLib) (f : H5File)
    (tr : List Event) (r : NotebookResults)
    (h : runNotebook lib f = (tr, Except.ok r)) :
    tr.head? = some (Event.fileOpened "r+") ∧
    (∃ g, r.finalFile.svdGroup = some g) ∧
    (∃ g, r.finalFile.kmeansGroup = some g) ∧
    r.finalFile.datasets = f.datasets ∧
    r.finalFile.specMean = f.specMean ∧
    select_raw r.finalFile = select_raw f := by
  obtain ⟨m, u, s, v, labels, centroids, hsel, hsvd, hkm, htr, hr⟩ :=
    runNotebook_ok_inv lib f tr r h
  subst htr hr
  exact ⟨rfl, ⟨⟨u, s, v⟩, rfl⟩, ⟨⟨labels, centroids⟩, rfl⟩, rfl, rfl, rfl⟩

/-- Witness for C7: the open-mode, group-write and preservation facts hold on
the concrete run of `libOk` over `fileOk`. -/
theorem file_writes_and_raw_preserved_witness :
    trW.head? = some (Event.fileOpened "r+") ∧
    resW.finalFile.datasets = fileOk.datasets ∧
    resW.finalFile.svdGroup = some ⟨mRaw, [], mRaw⟩ := by
  have h := file_writes_and_raw_preserved libOk fileOk trW resW rfl
  exact ⟨h.1, h.2.2.2.1, rfl⟩

/-- Claim C10: when the file holds more than one dataset named `Raw_Data`,
the script operates on the last dataset returned by the search: the run
selects and feeds to SVD the last match, and never touches a distinct first
match. -/
theorem raw_selection_takes_last (lib : ExtLib) (f : H5File) (tr : List Event)
    (r : NotebookResults) (m : MainMatrix)
    (h : runNotebook lib f = (tr, Except.ok r))
    (hlast : (find_dataset f.datasets "Raw_Data").getLast? = some m) :
    Event.rawSelected m ∈ tr ∧ Event.svdCalled m 256 ∈ tr ∧
    ∀ m0, (find_dataset f.datasets "Raw_Data").head? = some m0 → m0 ≠ m →
      Event.rawSelected m0 ∉ tr := by
  obtain ⟨m', u, s, v, labels, centroids, hsel, hsvd, hkm, htr, hr⟩ :=
    runNotebook_ok_inv lib f tr r h
  rw [select_raw, hlast] at hsel
  obtain rfl : m = m' := Option.some.injEq .. ▸ hsel
  subst htr
  refine ⟨by simp, by simp, ?_⟩
  intro m0 _ hne
  simp [hne]

/-- Witness for C10: `fileTwo` holds two `Raw_Data` datasets; the run of
`libOk` selects the second (`[[20]]`) and never selects the first
(`[[10]]`). -/
theorem raw_selection_takes_last_witness :
    Event.rawSelected [[20]] ∈ trTwo ∧
    Event.rawSelected [[10]] ∉ trTwo ∧
    (find_dataset fileTwo.datasets "Raw_Data").head? = some [[10]] := by
  have h := raw_selection_takes_last libOk fileTwo trTwo resTwo [[20]] rfl rfl
  exact ⟨h.1, h.2.2 [[10]] rfl (by decide), rfl⟩
